import Mathlib

/-!
Verification of the CÁRIS patient–professional consent and access-control
subsystem, shallowly embedded from `src/models/professional.py` and
`src/routes/professional.py`.

Time is modelled as a `Nat` count of seconds (the Python code uses
`datetime.utcnow()`; only differences and day counts matter here).
Database tables are modelled as Lean lists; SQLAlchemy
`filter_by(...).first()` becomes `List.find?` with the same predicate.
-/

namespace Caris

/-- Link status strings: `pendente, ativo, revogado, expirado`
(`VinculoProfissionalPaciente.status`, default `'pendente'`). -/
inductive Status where
  | pendente
  | ativo
  | revogado
  | expirado
deriving DecidableEq, Repr

/-- The four data categories gated by the capability flags
(`historico_completo`, `emocoes`, `ciclos`, `rituais`). -/
inductive Categoria where
  | historicoCompleto
  | emocoes
  | ciclos
  | rituais
deriving DecidableEq, Repr

/-- Embedding of the SQLAlchemy model `VinculoProfissionalPaciente`:
one row of the link table between a professional and a patient. -/
structure Vinculo where
  id : Nat
  profissional_id : Nat
  paciente_id : Nat
  codigo_convite : String
  data_convite : Nat
  data_aceite : Option Nat
  data_revogacao : Option Nat
  status : Status
  consentimento_ativo : Bool
  data_consentimento : Option Nat
  motivo_revogacao : Option String
  pode_ver_historico_completo : Bool
  pode_ver_emocoes : Bool
  pode_ver_ciclos : Bool
  pode_ver_rituais : Bool
  notas_profissional : Option String
deriving DecidableEq, Repr

/-- `VinculoProfissionalPaciente.__init__` together with the column
defaults: status `pendente`, consent off, flags
(historico=True, emocoes=True, ciclos=True, rituais=False). -/
def mkVinculo (id profissional_id paciente_id : Nat) (codigo : String)
    (now : Nat) : Vinculo :=
  { id := id
    profissional_id := profissional_id
    paciente_id := paciente_id
    codigo_convite := codigo
    data_convite := now
    data_aceite := none
    data_revogacao := none
    status := Status.pendente
    consentimento_ativo := false
    data_consentimento := none
    motivo_revogacao := none
    pode_ver_historico_completo := true
    pode_ver_emocoes := true
    pode_ver_ciclos := true
    pode_ver_rituais := false
    notas_profissional := none }

/-- Capability flag of a link for a requested category (the flag each
route consults, cf. `get_permissoes_resumo`). -/
def Vinculo.permissao (v : Vinculo) : Categoria → Bool
  | Categoria.historicoCompleto => v.pode_ver_historico_completo
  | Categoria.emocoes => v.pode_ver_emocoes
  | Categoria.ciclos => v.pode_ver_ciclos
  | Categoria.rituais => v.pode_ver_rituais

/-- Snapshot of the four capability flags
(`VinculoProfissionalPaciente.get_permissoes_resumo`). -/
structure Permissoes where
  historico_completo : Bool
  emocoes : Bool
  ciclos : Bool
  rituais : Bool
deriving DecidableEq, Repr

def Vinculo.get_permissoes_resumo (v : Vinculo) : Permissoes :=
  { historico_completo := v.pode_ver_historico_completo
    emocoes := v.pode_ver_emocoes
    ciclos := v.pode_ver_ciclos
    rituais := v.pode_ver_rituais }

/-- Embedding of the SQLAlchemy model `ConsentimentoPaciente`: one
append-only audit record. `permissoes_snapshot` and `motivo` are
nullable columns. -/
structure ConsentimentoPaciente where
  vinculo_id : Nat
  acao : String
  data_acao : Nat
  permissoes_snapshot : Option Permissoes
  motivo : Option String
  ip_address : Option String
deriving DecidableEq, Repr

/-- `VinculoProfissionalPaciente.aceitar_convite(consentimento_completo)`:
sets status `ativo`, consent on, both acceptance timestamps to now, and
when consent is partial additionally downgrades
`pode_ver_historico_completo` and `pode_ver_rituais`. -/
def aceitar_convite (v : Vinculo) (consentimento_completo : Bool)
    (now : Nat) : Vinculo :=
  let v' := { v with
    status := Status.ativo
    consentimento_ativo := true
    data_aceite := some now
    data_consentimento := some now }
  if consentimento_completo then v'
  else { v' with
    pode_ver_historico_completo := false
    pode_ver_rituais := false }

/-- `VinculoProfissionalPaciente.revogar_consentimento(motivo)`. -/
def revogar_consentimento (v : Vinculo) (motivo : Option String)
    (now : Nat) : Vinculo :=
  { v with
    status := Status.revogado
    consentimento_ativo := false
    data_revogacao := some now
    motivo_revogacao := motivo }

/-- `VinculoProfissionalPaciente.dias_desde_convite`: whole days since
the invitation (`(utcnow() - data_convite).days`). -/
def dias_desde_convite (v : Vinculo) (now : Nat) : Nat :=
  (now - v.data_convite) / 86400

/-- `VinculoProfissionalPaciente.convite_expirou(dias_expiracao)`. -/
def convite_expirou (v : Vinculo) (now : Nat) (dias_expiracao : Nat) : Bool :=
  dias_desde_convite v now > dias_expiracao && v.status == Status.pendente

/-- `ProfissionalSaude.pode_ver_paciente(user_id)`: a link for the pair
exists with status `ativo` and consent on (`filter_by(...).first()` is
not `None`). -/
def pode_ver_paciente (links : List Vinculo) (profId pacId : Nat) : Bool :=
  (links.find? (fun v =>
    v.profissional_id == profId && v.paciente_id == pacId &&
    v.status == Status.ativo && v.consentimento_ativo)).isSome

/-- The access gate a professional-facing route composes for a category
(cf. `api_paciente_emocoes`): first `pode_ver_paciente`, then the
re-fetched active link's capability flag for the category. Denial at any
step is a 403, i.e. `false`. -/
def can_view (links : List Vinculo) (profId pacId : Nat)
    (cat : Categoria) : Bool :=
  if pode_ver_paciente links profId pacId then
    match links.find? (fun v =>
        v.profissional_id == profId && v.paciente_id == pacId &&
        v.status == Status.ativo) with
    | none => false
    | some v => v.permissao cat
  else false

/-- Committing a mutated row back to the table: the row with the same
primary key is replaced. -/
def updateLink (links : List Vinculo) (v' : Vinculo) : List Vinculo :=
  links.map (fun w => if w.id == v'.id then v' else w)

/-- All invitation codes currently stored (the set
`gerar_codigo_convite` checks its candidate against). -/
def codes (links : List Vinculo) : List String :=
  links.map (fun v => v.codigo_convite)

/-- `gerar_codigo_convite`: draw a random candidate, and while some
stored link already holds it, redraw. The infinite random stream is
embedded as the list `draws` of successive candidates; `none` means the
stream was exhausted (the Python loop would keep drawing). -/
def gerar_codigo_convite (links : List Vinculo) :
    List String → Option String
  | [] => none
  | c :: rest =>
    if links.any (fun v => v.codigo_convite == c) then
      gerar_codigo_convite links rest
    else some c

/-- Route `revogar_acesso` (professional revokes own access): requires
an `ativo` link for the pair (`first_or_404`), then sets status
`revogado`, the revocation timestamp and the fixed reason directly on
the row. No `ConsentimentoPaciente` is created on this path. -/
def revogar_acesso (links : List Vinculo)
    (records : List ConsentimentoPaciente) (profId pacId : Nat)
    (now : Nat) : Option (List Vinculo × List ConsentimentoPaciente) :=
  match links.find? (fun v =>
      v.profissional_id == profId && v.paciente_id == pacId &&
      v.status == Status.ativo) with
  | none => none
  | some v =>
    let v' := { v with
      status := Status.revogado
      data_revogacao := some now
      motivo_revogacao := some "Revogado pelo profissional" }
    some (updateLink links v', records)

/-- Route `revogar_consentimento_paciente` (patient revokes consent):
looks the link up by id and patient only (no status filter), calls
`revogar_consentimento`, and appends one `revogado` audit record. -/
def revogar_consentimento_paciente (links : List Vinculo)
    (records : List ConsentimentoPaciente) (vinculoId pacId : Nat)
    (motivoForm : Option String) (now : Nat) (ip : Option String) :
    Option (List Vinculo × List ConsentimentoPaciente) :=
  match links.find? (fun v =>
      v.id == vinculoId && v.paciente_id == pacId) with
  | none => none
  | some v =>
    let motivo := motivoForm.getD "Sem motivo especificado"
    let v' := revogar_consentimento v (some motivo) now
    let reg : ConsentimentoPaciente :=
      { vinculo_id := v.id
        acao := "revogado"
        data_acao := now
        permissoes_snapshot := none
        motivo := some motivo
        ip_address := ip }
    some (updateLink links v', records ++ [reg])

/-- Python's `str.upper()` (the routes upper-case the code before the
lookup), written by structural recursion on the character list so that
it evaluates. -/
def strUpper (s : String) : String :=
  String.mk (s.data.map Char.toUpper)

/-- Outcome of the GET route `aceitar_convite` when the link is found. -/
inductive AceitarOutcome where
  | expirado
  | render
deriving DecidableEq, Repr

/-- Route `aceitar_convite` (GET): finds the pending link by upper-cased
code and patient; if the invitation expired (lazily checked), the link
is transitioned to `expirado` and committed before redirecting. -/
def aceitar_convite_route (links : List Vinculo) (codigo : String)
    (pacId : Nat) (now : Nat) :
    Option (List Vinculo × AceitarOutcome) :=
  match links.find? (fun v =>
      v.codigo_convite == strUpper codigo && v.paciente_id == pacId &&
      v.status == Status.pendente) with
  | none => none
  | some v =>
    if convite_expirou v now 30 then
      some (updateLink links { v with status := Status.expirado },
            AceitarOutcome.expirado)
    else
      some (links, AceitarOutcome.render)

/-- Route `confirmar_convite` (POST): finds the pending link by
upper-cased code and patient (`first_or_404`), accepts it, and appends
one `concedido` audit record with the post-acceptance flag snapshot. -/
def confirmar_convite (links : List Vinculo)
    (records : List ConsentimentoPaciente) (codigo : String)
    (pacId : Nat) (consentimento_completo : Bool) (now : Nat)
    (ip : Option String) :
    Option (List Vinculo × List ConsentimentoPaciente) :=
  match links.find? (fun v =>
      v.codigo_convite == strUpper codigo && v.paciente_id == pacId &&
      v.status == Status.pendente) with
  | none => none
  | some v =>
    let v' := aceitar_convite v consentimento_completo now
    let reg : ConsentimentoPaciente :=
      { vinculo_id := v.id
        acao := "concedido"
        data_acao := now
        permissoes_snapshot := some v'.get_permissoes_resumo
        motivo := none
        ip_address := ip }
    some (updateLink links v', records ++ [reg])

/-- Route `convidar_paciente`: if a link for the pair already exists,
`ativo`/`pendente` leave the store unchanged (flash only); `revogado`
reissues on the same row (new code, status `pendente`, new invited-at);
an `expirado` link matches no branch and is also left unchanged.
Otherwise a fresh link is created with a generated code. `freshId` is
the primary key the database would assign. -/
def convidar_paciente (links : List Vinculo) (profId pacId : Nat)
    (draws : List String) (now : Nat) (freshId : Nat) :
    Option (List Vinculo) :=
  match links.find? (fun v =>
      v.profissional_id == profId && v.paciente_id == pacId) with
  | some v =>
    match v.status with
    | Status.ativo => some links
    | Status.pendente => some links
    | Status.revogado =>
      (gerar_codigo_convite links draws).map (fun c =>
        updateLink links { v with
          status := Status.pendente
          data_convite := now
          codigo_convite := c })
    | Status.expirado => some links
  | none =>
    (gerar_codigo_convite links draws).map (fun c =>
      links ++ [mkVinculo freshId profId pacId c now])

/-- Test harness for the uniqueness invariant: issue one fresh
invitation per request, each through `gerar_codigo_convite` and the
fresh-link construction of `convidar_paciente`. A request is
`(freshId, profId, pacId, draws)`. -/
def issueN (now : Nat) :
    List Vinculo → List (Nat × Nat × Nat × List String) →
    Option (List Vinculo)
  | links, [] => some links
  | links, (i, p, u, draws) :: rest =>
    match gerar_codigo_convite links draws with
    | none => none
    | some c => issueN now (links ++ [mkVinculo i p u c now]) rest

/-- Embedding of the `DiaryEntry` columns the professional views use. -/
structure DiaryEntry where
  user_id : Nat
  created_at : Nat
  emotion : String
  cycle : Option String
deriving DecidableEq, Repr

/-- The diary query of route `ver_paciente`: all of the patient's
entries, restricted to the trailing 14 days when the link lacks
`pode_ver_historico_completo`, newest first, limited to 50 rows. -/
def ver_paciente_entradas (entries : List DiaryEntry) (pacId : Nat)
    (vinculo : Vinculo) (now : Nat) : List DiaryEntry :=
  let q := entries.filter (fun e => e.user_id == pacId)
  let q :=
    if vinculo.pode_ver_historico_completo then q
    else q.filter (fun e => decide (now - 14 * 86400 ≤ e.created_at))
  (q.mergeSort (fun a b => b.created_at ≤ a.created_at)).take 50

/-- At most one link row exists for a (professional, patient) pair —
the store invariant `convidar_paciente` maintains by checking for an
existing row before inserting. -/
def atMostOnePair (links : List Vinculo) (profId pacId : Nat) : Prop :=
  (links.filter (fun v =>
    v.profissional_id == profId && v.paciente_id == pacId)).length ≤ 1

instance (links : List Vinculo) (profId pacId : Nat) :
    Decidable (atMostOnePair links profId pacId) := by
  unfold atMostOnePair; infer_instance

/-- The database uniqueness constraint on `codigo_convite`. -/
def codigosUnicos (links : List Vinculo) : Prop :=
  (codes links).Nodup

instance (links : List Vinculo) : Decidable (codigosUnicos links) := by
  unfold codigosUnicos; infer_instance

/-- The primary-key constraint on `id`. -/
def idsUnicos (links : List Vinculo) : Prop :=
  (links.map (fun v => v.id)).Nodup

instance (links : List Vinculo) : Decidable (idsUnicos links) := by
  unfold idsUnicos; infer_instance

end Caris

namespace Caris

/-- In a list of length at most one, any two members coincide. -/
theorem eq_of_mem_of_length_le_one {α : Type _} {l : List α}
    (h : l.length ≤ 1) {a b : α} (ha : a ∈ l) (hb : b ∈ l) : a = b := by
  match l with
  | [] => cases ha
  | [x] =>
    rw [List.mem_singleton] at ha hb
    rw [ha, hb]
  | x :: y :: t => simp at h

/-- Members with equal images under an injective-on-the-list map are
equal, when the mapped list has no duplicates. -/
theorem eq_of_nodup_map {α β : Type _} {f : α → β} {l : List α}
    (h : (l.map f).Nodup) {a b : α} (ha : a ∈ l) (hb : b ∈ l)
    (hf : f a = f b) : a = b := by
  induction l with
  | nil => cases ha
  | cons x t ih =>
    rw [List.map_cons, List.nodup_cons] at h
    cases ha with
    | head =>
      cases hb with
      | head => rfl
      | tail _ hb' =>
        exact absurd (hf ▸ List.mem_map_of_mem f hb') h.1
    | tail _ ha' =>
      cases hb with
      | head =>
        exact absurd (hf ▸ List.mem_map_of_mem f ha') h.1
      | tail _ hb' => exact ih h.2 ha' hb'

/-- Under the one-link-per-pair invariant, two stored links matching the
same (professional, patient) pair coincide. -/
theorem mem_pair_eq {links : List Vinculo} {p u : Nat}
    (h : atMostOnePair links p u) {a b : Vinculo}
    (ha : a ∈ links) (hb : b ∈ links)
    (hap : a.profissional_id = p) (hau : a.paciente_id = u)
    (hbp : b.profissional_id = p) (hbu : b.paciente_id = u) : a = b := by
  refine eq_of_mem_of_length_le_one h ?_ ?_
  · exact List.mem_filter.mpr ⟨ha, by simp [hap, hau]⟩
  · exact List.mem_filter.mpr ⟨hb, by simp [hbp, hbu]⟩

/-- C1: the composed access gate grants exactly when a link for the pair
exists with status `ativo`, consent on, and the requested category's
capability flag on; it denies in every other case. -/
theorem can_view_gate_spec (links : List Vinculo) (p u : Nat)
    (cat : Categoria) (h : atMostOnePair links p u) :
    can_view links p u cat = true ↔
      ∃ v, v ∈ links ∧ v.profissional_id = p ∧ v.paciente_id = u ∧
        v.status = Status.ativo ∧ v.consentimento_ativo = true ∧
        v.permissao cat = true := by
  constructor
  · intro hcv
    unfold can_view at hcv
    split at hcv
    case isTrue hpv =>
      unfold pode_ver_paciente at hpv
      rw [List.find?_isSome] at hpv
      obtain ⟨x, hxmem, hxpred⟩ := hpv
      simp only [Bool.and_eq_true, beq_iff_eq] at hxpred
      obtain ⟨⟨⟨hxp, hxu⟩, hxs⟩, hxc⟩ := hxpred
      split at hcv
      case h_1 => cases hcv
      case h_2 v hv =>
        have hvmem := List.mem_of_find?_eq_some hv
        have hvpred := List.find?_some hv
        simp only [Bool.and_eq_true, beq_iff_eq] at hvpred
        obtain ⟨⟨hvp, hvu⟩, hvs⟩ := hvpred
        have hxv : x = v := mem_pair_eq h hxmem hvmem hxp hxu hvp hvu
        exact ⟨v, hvmem, hvp, hvu, hvs, hxv ▸ hxc, hcv⟩
    case isFalse => cases hcv
  · rintro ⟨v, hvmem, hvp, hvu, hvs, hvc, hvperm⟩
    have hpv : pode_ver_paciente links p u = true := by
      unfold pode_ver_paciente
      rw [List.find?_isSome]
      exact ⟨v, hvmem, by simp [hvp, hvu, hvs, hvc]⟩
    unfold can_view
    rw [if_pos hpv]
    have hsome : (links.find? (fun v' =>
        v'.profissional_id == p && v'.paciente_id == u &&
        v'.status == Status.ativo)).isSome := by
      rw [List.find?_isSome]
      exact ⟨v, hvmem, by simp [hvp, hvu, hvs]⟩
    obtain ⟨w, hw⟩ := Option.isSome_iff_exists.mp hsome
    rw [hw]
    have hwmem := List.mem_of_find?_eq_some hw
    have hwpred := List.find?_some hw
    simp only [Bool.and_eq_true, beq_iff_eq] at hwpred
    obtain ⟨⟨hwp, hwu⟩, _⟩ := hwpred
    have : w = v := mem_pair_eq h hwmem hvmem hwp hwu hvp hvu
    rw [this]
    exact hvperm

/-- Witness for `can_view_gate_spec`: a concrete store with one active,
consenting link grants the emotions category. -/
theorem can_view_gate_spec_witness :
    can_view [aceitar_convite (mkVinculo 1 1 2 "EEEE4444" 0) true 10]
      1 2 Categoria.emocoes = true :=
  (can_view_gate_spec
      [aceitar_convite (mkVinculo 1 1 2 "EEEE4444" 0) true 10]
      1 2 Categoria.emocoes (by decide)).mpr
    ⟨aceitar_convite (mkVinculo 1 1 2 "EEEE4444" 0) true 10,
      by simp, rfl, rfl, rfl, rfl, rfl⟩

/-- C3: revoking sets status `revogado` and consent off, and the access
gate evaluated on the updated store immediately denies every category
for that pair. -/
theorem revogar_then_can_view_false (links : List Vinculo) (v : Vinculo)
    (motivo : Option String) (now : Nat) (p u : Nat) (cat : Categoria)
    (hmem : v ∈ links) (hvp : v.profissional_id = p)
    (hvu : v.paciente_id = u) (h : atMostOnePair links p u)
    (hact : v.status = Status.ativo) :
    (revogar_consentimento v motivo now).status = Status.revogado ∧
    (revogar_consentimento v motivo now).consentimento_ativo = false ∧
    can_view (updateLink links (revogar_consentimento v motivo now))
      p u cat = false := by
  refine ⟨rfl, rfl, ?_⟩
  have hpv : pode_ver_paciente
      (updateLink links (revogar_consentimento v motivo now)) p u = false := by
    unfold pode_ver_paciente
    rw [Bool.eq_false_iff, ne_eq, Option.isSome_iff_exists]
    rintro ⟨w, hw⟩
    have hwmem := List.mem_of_find?_eq_some hw
    have hwpred := List.find?_some hw
    simp only [Bool.and_eq_true, beq_iff_eq] at hwpred
    obtain ⟨⟨⟨hwp, hwu⟩, hws⟩, _⟩ := hwpred
    unfold updateLink at hwmem
    obtain ⟨w₀, hw₀mem, hw₀⟩ := List.mem_map.mp hwmem
    by_cases hid : (w₀.id == (revogar_consentimento v motivo now).id) = true
    · rw [if_pos hid] at hw₀
      rw [← hw₀] at hws
      cases hws
    · rw [if_neg hid] at hw₀
      subst hw₀
      have hwv : w₀ = v := mem_pair_eq h hw₀mem hmem hwp hwu hvp hvu
      exact hid (by rw [hwv]; simp [revogar_consentimento])
  unfold can_view
  rw [if_neg (by simp [hpv])]

/-- Witness for `revogar_then_can_view_false` at a concrete active link. -/
theorem revogar_then_can_view_false_witness :
    (revogar_consentimento
        (aceitar_convite (mkVinculo 4 1 2 "FFFF5555" 0) true 10)
        (some "privacidade") 20).status = Status.revogado ∧
    (revogar_consentimento
        (aceitar_convite (mkVinculo 4 1 2 "FFFF5555" 0) true 10)
        (some "privacidade") 20).consentimento_ativo = false ∧
    can_view
      (updateLink [aceitar_convite (mkVinculo 4 1 2 "FFFF5555" 0) true 10]
        (revogar_consentimento
          (aceitar_convite (mkVinculo 4 1 2 "FFFF5555" 0) true 10)
          (some "privacidade") 20))
      1 2 Categoria.emocoes = false :=
  revogar_then_can_view_false
    [aceitar_convite (mkVinculo 4 1 2 "FFFF5555" 0) true 10]
    (aceitar_convite (mkVinculo 4 1 2 "FFFF5555" 0) true 10)
    (some "privacidade") 20 1 2 Categoria.emocoes
    (by simp) rfl rfl (by decide) rfl

/-- C4 counterexample: a professional-initiated revoke of an active link
succeeds yet appends zero `ConsentimentoPaciente` records, refuting
"appends exactly one ConsentRecord ... whether performed by the Patient
or by the Professional". -/
theorem revogar_acesso_appends_no_record_cex :
    (revogar_acesso
        [aceitar_convite (mkVinculo 5 1 2 "AAAA0000" 0) true 10]
        [] 1 2 100).map (fun r => r.2.length) = some 0 := by rfl

/-- C4 amended: only the patient-initiated revoke route appends a
(single) `revogado` audit record; the professional-initiated route
appends none. -/
theorem revoke_audit_paths_spec
    (links : List Vinculo) (records : List ConsentimentoPaciente)
    (vid u now : Nat) (motivoForm ip : Option String) (v : Vinculo)
    (links₀ : List Vinculo) (records₀ : List ConsentimentoPaciente)
    (p₂ u₂ now₂ : Nat) (links₂ : List Vinculo)
    (records₂ : List ConsentimentoPaciente)
    (hfind : links.find? (fun w => w.id == vid && w.paciente_id == u) =
      some v)
    (h₂ : revogar_acesso links₀ records₀ p₂ u₂ now₂ =
      some (links₂, records₂)) :
    revogar_consentimento_paciente links records vid u motivoForm now ip =
      some (updateLink links (revogar_consentimento v
              (some (motivoForm.getD "Sem motivo especificado")) now),
            records ++
              [{ vinculo_id := v.id
                 acao := "revogado"
                 data_acao := now
                 permissoes_snapshot := none
                 motivo := some (motivoForm.getD "Sem motivo especificado")
                 ip_address := ip }]) ∧
    records₂ = records₀ := by
  constructor
  · unfold revogar_consentimento_paciente
    rw [hfind]
  · unfold revogar_acesso at h₂
    split at h₂
    case h_1 => cases h₂
    case h_2 w hw =>
      simp only [Option.some.injEq, Prod.mk.injEq] at h₂
      exact h₂.2.symm

/-- Witness for `revoke_audit_paths_spec` at concrete stores. -/
theorem revoke_audit_paths_spec_witness :
    revogar_consentimento_paciente
        [aceitar_convite (mkVinculo 5 1 2 "GGGG6666" 0) true 10]
        [] 5 2 none 100 none =
      some (updateLink
              [aceitar_convite (mkVinculo 5 1 2 "GGGG6666" 0) true 10]
              (revogar_consentimento
                (aceitar_convite (mkVinculo 5 1 2 "GGGG6666" 0) true 10)
                (some ((none : Option String).getD "Sem motivo especificado"))
                100),
            [] ++
              [{ vinculo_id :=
                   (aceitar_convite (mkVinculo 5 1 2 "GGGG6666" 0) true 10).id
                 acao := "revogado"
                 data_acao := 100
                 permissoes_snapshot := none
                 motivo := some ((none : Option String).getD
                   "Sem motivo especificado")
                 ip_address := none }]) ∧
    ([] : List ConsentimentoPaciente) = [] :=
  revoke_audit_paths_spec
    [aceitar_convite (mkVinculo 5 1 2 "GGGG6666" 0) true 10] [] 5 2 100
    none none (aceitar_convite (mkVinculo 5 1 2 "GGGG6666" 0) true 10)
    [aceitar_convite (mkVinculo 5 1 2 "GGGG6666" 0) true 10] [] 1 2 100
    (updateLink [aceitar_convite (mkVinculo 5 1 2 "GGGG6666" 0) true 10]
      { aceitar_convite (mkVinculo 5 1 2 "GGGG6666" 0) true 10 with
          status := Status.revogado
          data_revogacao := some 100
          motivo_revogacao := some "Revogado pelo profissional" })
    [] (by rfl) (by rfl)

/-- C5 counterexample: a patient-initiated revoke of a `pendente` link
succeeds, mutates the link to `revogado`, and appends one audit record —
refuting "revoke is valid only on an active link; from any other status
it fails and leaves the link unchanged and appends no record". -/
theorem revogar_pendente_succeeds_cex :
    (revogar_consentimento_paciente [mkVinculo 7 1 2 "BBBB1111" 0]
        [] 7 2 none 100 none).map
      (fun r => (r.1.map (fun v => v.status), r.2.length)) =
      some ([Status.revogado], 1) := by rfl

/-- C5 amended: the patient-side revoke route checks no status at all —
it succeeds on a link of any status, setting it `revogado` with consent
off; only the professional-side route restricts to `ativo` links,
failing (row not found, no mutation) when the pair has none. -/
theorem revoke_guard_spec
    (links : List Vinculo) (records : List ConsentimentoPaciente)
    (vid u now : Nat) (motivoForm ip : Option String) (v : Vinculo)
    (links₂ : List Vinculo) (records₂ : List ConsentimentoPaciente)
    (p₂ u₂ now₂ : Nat)
    (hfind : links.find? (fun w => w.id == vid && w.paciente_id == u) =
      some v)
    (hnoactive : ∀ w ∈ links₂, ¬(w.profissional_id = p₂ ∧
      w.paciente_id = u₂ ∧ w.status = Status.ativo)) :
    ((revogar_consentimento_paciente links records vid u motivoForm
        now ip).isSome = true ∧
     (revogar_consentimento v
        (some (motivoForm.getD "Sem motivo especificado")) now).status =
        Status.revogado ∧
     (revogar_consentimento v
        (some (motivoForm.getD "Sem motivo especificado")) now).consentimento_ativo
        = false) ∧
    revogar_acesso links₂ records₂ p₂ u₂ now₂ = none := by
  refine ⟨⟨?_, rfl, rfl⟩, ?_⟩
  · unfold revogar_consentimento_paciente
    rw [hfind]
    rfl
  · unfold revogar_acesso
    have hnone : links₂.find? (fun v =>
        v.profissional_id == p₂ && v.paciente_id == u₂ &&
        v.status == Status.ativo) = none := by
      rw [List.find?_eq_none]
      intro w hw hcontra
      simp only [Bool.and_eq_true, beq_iff_eq] at hcontra
      exact hnoactive w hw ⟨hcontra.1.1, hcontra.1.2, hcontra.2⟩
    rw [hnone]

/-- Witness for `revoke_guard_spec`: the patient revokes a still-pending
link; the professional route finds nothing active. -/
theorem revoke_guard_spec_witness :
    ((revogar_consentimento_paciente [mkVinculo 7 1 2 "BBBB1111" 0]
        [] 7 2 none 100 none).isSome = true ∧
     (revogar_consentimento (mkVinculo 7 1 2 "BBBB1111" 0)
        (some ((none : Option String).getD "Sem motivo especificado"))
        100).status = Status.revogado ∧
     (revogar_consentimento (mkVinculo 7 1 2 "BBBB1111" 0)
        (some ((none : Option String).getD "Sem motivo especificado"))
        100).consentimento_ativo = false) ∧
    revogar_acesso [mkVinculo 7 1 2 "BBBB1111" 0] [] 1 2 100 = none :=
  revoke_guard_spec [mkVinculo 7 1 2 "BBBB1111" 0] [] 7 2 100 none none
    (mkVinculo 7 1 2 "BBBB1111" 0) [mkVinculo 7 1 2 "BBBB1111" 0] [] 1 2
    100 (by rfl) (by decide)

/-- `gerar_codigo_convite` only returns a candidate no stored link
already holds. -/
theorem gerar_codigo_convite_fresh (links : List Vinculo)
    (draws : List String) (c : String)
    (hgen : gerar_codigo_convite links draws = some c) :
    ∀ v ∈ links, v.codigo_convite ≠ c := by
  induction draws with
  | nil => cases hgen
  | cons d rest ih =>
    unfold gerar_codigo_convite at hgen
    by_cases hin : (links.any (fun v => v.codigo_convite == d)) = true
    · rw [if_pos hin] at hgen
      exact ih hgen
    · rw [if_neg hin] at hgen
      cases hgen
      intro v hv hvc
      exact hin (List.any_eq_true.mpr ⟨v, hv, by simp [hvc]⟩)

/-- C6 counterexample: reissuing a revoked invitation leaves
`motivo_revogacao` and `data_revogacao` untouched, refuting "clears the
revoked-at timestamp and clears the revocation-reason". -/
theorem reissue_keeps_revocation_fields_cex :
    (convidar_paciente
        [{ mkVinculo 3 1 2 "CCCC2222" 0 with
             status := Status.revogado
             data_revogacao := some 50
             motivo_revogacao := some "privacidade" }]
        1 2 ["DDDD3333"] 100 9).map
      (fun ls => ls.map (fun v =>
        (v.status, v.data_revogacao, v.motivo_revogacao))) =
      some [(Status.pendente, some 50, some "privacidade")] := by rfl

/-- C6 amended: reissuing a revoked link regenerates the code (the new
code differs from the old, since generation rejects every stored code
including this link's), resets status to `pending` and invited-at to
now, keeps the same row (same id, no new row) — but leaves revoked-at
and revocation-reason unchanged rather than clearing them. -/
theorem reissue_invitation_spec (links : List Vinculo) (p u : Nat)
    (draws : List String) (now freshId : Nat) (v : Vinculo) (c : String)
    (hfind : links.find? (fun w =>
      w.profissional_id == p && w.paciente_id == u) = some v)
    (hrev : v.status = Status.revogado)
    (hgen : gerar_codigo_convite links draws = some c) :
    convidar_paciente links p u draws now freshId =
      some (updateLink links { v with
        status := Status.pendente
        data_convite := now
        codigo_convite := c }) ∧
    c ≠ v.codigo_convite ∧
    ({ v with
        status := Status.pendente
        data_convite := now
        codigo_convite := c } : Vinculo).id = v.id ∧
    ({ v with
        status := Status.pendente
        data_convite := now
        codigo_convite := c } : Vinculo).data_revogacao =
      v.data_revogacao ∧
    ({ v with
        status := Status.pendente
        data_convite := now
        codigo_convite := c } : Vinculo).motivo_revogacao =
      v.motivo_revogacao ∧
    (updateLink links { v with
        status := Status.pendente
        data_convite := now
        codigo_convite := c }).length = links.length := by
  have hmem := List.mem_of_find?_eq_some hfind
  refine ⟨?_, ?_, rfl, rfl, rfl, by simp [updateLink]⟩
  · unfold convidar_paciente
    rw [hfind]
    dsimp only
    rw [hrev, hgen]
    rfl
  · intro hc
    exact gerar_codigo_convite_fresh links draws c hgen v hmem hc.symm

/-- Witness for `reissue_invitation_spec` at a concrete revoked link. -/
theorem reissue_invitation_spec_witness :
    convidar_paciente
        [{ mkVinculo 3 1 2 "CCCC2222" 0 with
             status := Status.revogado
             data_revogacao := some 50
             motivo_revogacao := some "privacidade" }]
        1 2 ["DDDD3333"] 100 9 =
      some (updateLink
        [{ mkVinculo 3 1 2 "CCCC2222" 0 with
             status := Status.revogado
             data_revogacao := some 50
             motivo_revogacao := some "privacidade" }]
        { { mkVinculo 3 1 2 "CCCC2222" 0 with
              status := Status.revogado
              data_revogacao := some 50
              motivo_revogacao := some "privacidade" } with
            status := Status.pendente
            data_convite := 100
            codigo_convite := "DDDD3333" }) ∧
    "DDDD3333" ≠ ({ mkVinculo 3 1 2 "CCCC2222" 0 with
        status := Status.revogado
        data_revogacao := some 50
        motivo_revogacao := some "privacidade" } : Vinculo).codigo_convite ∧
    ({ { mkVinculo 3 1 2 "CCCC2222" 0 with
          status := Status.revogado
          data_revogacao := some 50
          motivo_revogacao := some "privacidade" } with
        status := Status.pendente
        data_convite := 100
        codigo_convite := "DDDD3333" } : Vinculo).id =
      ({ mkVinculo 3 1 2 "CCCC2222" 0 with
          status := Status.revogado
          data_revogacao := some 50
          motivo_revogacao := some "privacidade" } : Vinculo).id ∧
    ({ { mkVinculo 3 1 2 "CCCC2222" 0 with
          status := Status.revogado
          data_revogacao := some 50
          motivo_revogacao := some "privacidade" } with
        status := Status.pendente
        data_convite := 100
        codigo_convite := "DDDD3333" } : Vinculo).data_revogacao =
      ({ mkVinculo 3 1 2 "CCCC2222" 0 with
          status := Status.revogado
          data_revogacao := some 50
          motivo_revogacao := some "privacidade" } : Vinculo).data_revogacao ∧
    ({ { mkVinculo 3 1 2 "CCCC2222" 0 with
          status := Status.revogado
          data_revogacao := some 50
          motivo_revogacao := some "privacidade" } with
        status := Status.pendente
        data_convite := 100
        codigo_convite := "DDDD3333" } : Vinculo).motivo_revogacao =
      ({ mkVinculo 3 1 2 "CCCC2222" 0 with
          status := Status.revogado
          data_revogacao := some 50
          motivo_revogacao := some "privacidade" } : Vinculo).motivo_revogacao ∧
    (updateLink
        [{ mkVinculo 3 1 2 "CCCC2222" 0 with
             status := Status.revogado
             data_revogacao := some 50
             motivo_revogacao := some "privacidade" }]
        { { mkVinculo 3 1 2 "CCCC2222" 0 with
              status := Status.revogado
              data_revogacao := some 50
              motivo_revogacao := some "privacidade" } with
            status := Status.pendente
            data_convite := 100
            codigo_convite := "DDDD3333" }).length =
      [{ mkVinculo 3 1 2 "CCCC2222" 0 with
           status := Status.revogado
           data_revogacao := some 50
           motivo_revogacao := some "privacidade" }].length :=
  reissue_invitation_spec
    [{ mkVinculo 3 1 2 "CCCC2222" 0 with
         status := Status.revogado
         data_revogacao := some 50
         motivo_revogacao := some "privacidade" }]
    1 2 ["DDDD3333"] 100 9
    { mkVinculo 3 1 2 "CCCC2222" 0 with
        status := Status.revogado
        data_revogacao := some 50
        motivo_revogacao := some "privacidade" }
    "DDDD3333" (by rfl) (by rfl) (by rfl)

/-- The GET-first ordering of the accept flow: a pending invitation
older than 30 days is transitioned to `expirado` by the accept page
that observes it, and the accept confirmation evaluated on the updated
store then fails (the pending row no longer exists) without touching
the store. Only this ordering enforces expiry: the confirmation route
itself never calls `convite_expirou` (see
`confirmar_convite_expired_accept_bug`). -/
theorem expiry_lazy_transition_spec (links : List Vinculo)
    (codigo : String) (u now : Nat)
    (records : List ConsentimentoPaciente) (full : Bool) (now₂ : Nat)
    (ip : Option String) (v : Vinculo)
    (hfind : links.find? (fun w =>
      w.codigo_convite == strUpper codigo && w.paciente_id == u &&
      w.status == Status.pendente) = some v)
    (hold : 30 < dias_desde_convite v now)
    (hcode : codigosUnicos links) :
    aceitar_convite_route links codigo u now =
      some (updateLink links { v with status := Status.expirado },
            AceitarOutcome.expirado) ∧
    confirmar_convite (updateLink links { v with status := Status.expirado })
      records codigo u full now₂ ip = none := by
  have hpred := List.find?_some hfind
  simp only [Bool.and_eq_true, beq_iff_eq] at hpred
  obtain ⟨⟨hvc, hvu⟩, hvs⟩ := hpred
  constructor
  · unfold aceitar_convite_route
    rw [hfind]
    dsimp only
    have hexp : convite_expirou v now 30 = true := by
      simp [convite_expirou, hold, hvs]
    rw [if_pos hexp]
  · unfold confirmar_convite
    have hnone : (updateLink links { v with status := Status.expirado }).find?
        (fun w => w.codigo_convite == strUpper codigo &&
          w.paciente_id == u && w.status == Status.pendente) = none := by
      rw [List.find?_eq_none]
      intro x hx hpx
      simp only [Bool.and_eq_true, beq_iff_eq] at hpx
      obtain ⟨⟨hxc, hxu⟩, hxs⟩ := hpx
      unfold updateLink at hx
      obtain ⟨w, hwmem, hwx⟩ := List.mem_map.mp hx
      by_cases hid : (w.id == ({ v with status := Status.expirado } : Vinculo).id) = true
      · rw [if_pos hid] at hwx
        rw [← hwx] at hxs
        cases hxs
      · rw [if_neg hid] at hwx
        subst hwx
        have hwv : w = v :=
          eq_of_nodup_map hcode hwmem (List.mem_of_find?_eq_some hfind)
            (hxc.trans hvc.symm)
        exact hid (by rw [hwv]; simp)
    rw [hnone]

/-- Instance of `expiry_lazy_transition_spec`: a 31-day-old pending
invitation expires on the GET access and can then no longer be
confirmed. -/
theorem expiry_lazy_transition_spec_witness :
    aceitar_convite_route [mkVinculo 1 1 2 "HHHH7777" 0] "HHHH7777" 2
        2678500 =
      some (updateLink [mkVinculo 1 1 2 "HHHH7777" 0]
              { mkVinculo 1 1 2 "HHHH7777" 0 with status := Status.expirado },
            AceitarOutcome.expirado) ∧
    confirmar_convite
      (updateLink [mkVinculo 1 1 2 "HHHH7777" 0]
        { mkVinculo 1 1 2 "HHHH7777" 0 with status := Status.expirado })
      [] "HHHH7777" 2 true 2678600 none = none :=
  expiry_lazy_transition_spec [mkVinculo 1 1 2 "HHHH7777" 0] "HHHH7777" 2
    2678500 [] true 2678600 none (mkVinculo 1 1 2 "HHHH7777" 0)
    (by decide) (by decide) (by decide)

/-- C7: the code contradicts "an expired invitation is never accepted".
`confirmar_convite` filters only on status `pendente` and never calls
`convite_expirou`, so a direct confirmation POST — with no prior GET
having observed the link — accepts a 31-day-old pending invitation: at
an instant where `convite_expirou` is already true, the link becomes
`ativo` with consent granted and a `concedido` audit record is
appended. -/
theorem confirmar_convite_expired_accept_bug :
    convite_expirou (mkVinculo 1 1 2 "HHHH7777" 0) 2678500 30 = true ∧
    (confirmar_convite [mkVinculo 1 1 2 "HHHH7777" 0] [] "HHHH7777" 2
        true 2678500 none).map
      (fun r => (r.1.map (fun v => (v.status, v.consentimento_ativo)),
                 r.2.map (fun reg => reg.acao))) =
      some ([(Status.ativo, true)], ["concedido"]) := by
  exact ⟨by decide, by decide⟩

/-- Appending a link whose code no stored link holds preserves code
uniqueness. -/
theorem codigosUnicos_append_fresh (links : List Vinculo) (w : Vinculo)
    (h : codigosUnicos links)
    (hf : ∀ v ∈ links, v.codigo_convite ≠ w.codigo_convite) :
    codigosUnicos (links ++ [w]) := by
  unfold codigosUnicos codes at h ⊢
  rw [List.map_append, List.nodup_append]
  refine ⟨h, List.nodup_singleton _, ?_⟩
  intro a ha hb
  simp only [List.map_cons, List.map_nil, List.mem_singleton] at hb
  obtain ⟨x, hxmem, hxc⟩ := List.mem_map.mp ha
  exact hf x hxmem (hxc.trans hb)

/-- Replacing a row by one whose code no stored link holds preserves
code uniqueness (ids are primary keys). -/
theorem codigosUnicos_updateLink (links : List Vinculo) (v' : Vinculo)
    (hcode : codigosUnicos links) (hid : idsUnicos links)
    (hf : ∀ w ∈ links, w.codigo_convite ≠ v'.codigo_convite) :
    codigosUnicos (updateLink links v') := by
  unfold codigosUnicos codes updateLink
  unfold codigosUnicos codes at hcode
  unfold idsUnicos at hid
  rw [List.map_map]
  have hnl : links.Nodup := List.Nodup.of_map _ hid
  refine List.Nodup.map_on ?_ hnl
  intro x hx y hy hxy
  dsimp only [Function.comp] at hxy
  by_cases hx1 : (x.id == v'.id) = true <;>
    by_cases hy1 : (y.id == v'.id) = true
  · simp only [beq_iff_eq] at hx1 hy1
    exact eq_of_nodup_map hid hx hy (by rw [hx1, hy1])
  · rw [if_pos hx1, if_neg hy1] at hxy
    exact absurd hxy.symm (hf y hy)
  · rw [if_neg hx1, if_pos hy1] at hxy
    exact absurd hxy (hf x hx)
  · rw [if_neg hx1, if_neg hy1] at hxy
    exact eq_of_nodup_map hcode hx hy hxy

/-- Issuing fresh invitations preserves code uniqueness and grows the
store by one row per request. -/
theorem issueN_invariant (now : Nat) (reqs : List (Nat × Nat × Nat × List String)) :
    ∀ links links', codigosUnicos links → issueN now links reqs = some links' →
      codigosUnicos links' ∧ links'.length = links.length + reqs.length := by
  induction reqs with
  | nil =>
    intro links links' hnd h
    unfold issueN at h
    cases h
    exact ⟨hnd, rfl⟩
  | cons req rest ih =>
    intro links links' hnd h
    obtain ⟨i, p, u, draws⟩ := req
    unfold issueN at h
    revert h
    cases hgen : gerar_codigo_convite links draws with
    | none => intro h; cases h
    | some c =>
      intro h
      have hfresh := gerar_codigo_convite_fresh links draws c hgen
      have hnd' : codigosUnicos (links ++ [mkVinculo i p u c now]) := by
        unfold codigosUnicos codes at hnd ⊢
        rw [List.map_append, List.nodup_append]
        refine ⟨hnd, List.nodup_singleton _, ?_⟩
        intro a ha hb
        simp only [List.map_cons, List.map_nil, List.mem_singleton] at hb
        obtain ⟨w, hwmem, hwc⟩ := List.mem_map.mp ha
        exact hfresh w hwmem (by rw [hwc, hb]; rfl)
      have := ih (links ++ [mkVinculo i p u c now]) links' hnd' h
      refine ⟨this.1, ?_⟩
      rw [this.2]
      simp
      omega

/-- C2: accepting a pending invitation activates the link, turns consent
on, stamps both timestamps, and partial consent forces the two most
sensitive flags off. -/
theorem aceitar_convite_pendente_spec (v : Vinculo) (full : Bool) (now : Nat)
    (hpend : v.status = Status.pendente) :
    (aceitar_convite v full now).status = Status.ativo ∧
    (aceitar_convite v full now).consentimento_ativo = true ∧
    (aceitar_convite v full now).data_aceite = some now ∧
    (aceitar_convite v full now).data_consentimento = some now ∧
    (full = false →
      (aceitar_convite v full now).pode_ver_historico_completo = false ∧
      (aceitar_convite v full now).pode_ver_rituais = false) := by
  cases full <;> simp [aceitar_convite]

/-- Witness for `aceitar_convite_pendente_spec` at a concrete pending link. -/
theorem aceitar_convite_pendente_spec_witness :
    (aceitar_convite (mkVinculo 1 2 3 "ABCD1234" 0) false 5).status = Status.ativo ∧
    (aceitar_convite (mkVinculo 1 2 3 "ABCD1234" 0) false 5).consentimento_ativo = true ∧
    (aceitar_convite (mkVinculo 1 2 3 "ABCD1234" 0) false 5).data_aceite = some 5 ∧
    (aceitar_convite (mkVinculo 1 2 3 "ABCD1234" 0) false 5).data_consentimento = some 5 ∧
    (false = false →
      (aceitar_convite (mkVinculo 1 2 3 "ABCD1234" 0) false 5).pode_ver_historico_completo = false ∧
      (aceitar_convite (mkVinculo 1 2 3 "ABCD1234" 0) false 5).pode_ver_rituais = false) :=
  aceitar_convite_pendente_spec (mkVinculo 1 2 3 "ABCD1234" 0) false 5 (by rfl)

/-- C10: `aceitar_convite` never touches the view-emotions or view-cycles
flags, the invitation code, or the professional notes; and on a
freshly-constructed link (whose defaults set both to true) a partial
consent still leaves emotions and cycles visible. -/
theorem aceitar_convite_frame (v : Vinculo) (full : Bool) (now : Nat) :
    (aceitar_convite v full now).pode_ver_emocoes = v.pode_ver_emocoes ∧
    (aceitar_convite v full now).pode_ver_ciclos = v.pode_ver_ciclos ∧
    (aceitar_convite v full now).codigo_convite = v.codigo_convite ∧
    (aceitar_convite v full now).notas_profissional = v.notas_profissional ∧
    (aceitar_convite (mkVinculo v.id v.profissional_id v.paciente_id
        v.codigo_convite v.data_convite) false now).pode_ver_emocoes = true ∧
    (aceitar_convite (mkVinculo v.id v.profissional_id v.paciente_id
        v.codigo_convite v.data_convite) false now).pode_ver_ciclos = true := by
  cases full <;> simp [aceitar_convite, mkVinculo]

/-- C8: code generation redraws until the candidate matches no stored
code, so a generated code never collides with a stored one; issuing
N fresh invitations from an empty store yields N links with pairwise
distinct codes; and the invitation route (fresh invite or reissue alike)
preserves code uniqueness in every reachable store. -/
theorem codigo_convite_unico_spec :
    (∀ links draws c, gerar_codigo_convite links draws = some c →
      ∀ v ∈ links, v.codigo_convite ≠ c) ∧
    (∀ now reqs links', issueN now [] reqs = some links' →
      codigosUnicos links' ∧ links'.length = reqs.length) ∧
    (∀ links p u draws now i links', codigosUnicos links →
      idsUnicos links → convidar_paciente links p u draws now i =
        some links' → codigosUnicos links') := by
  refine ⟨gerar_codigo_convite_fresh, fun now reqs links' h => ?_, ?_⟩
  · have := issueN_invariant now reqs [] links'
      (by simp [codigosUnicos, codes]) h
    simpa using this
  · intro links p u draws now i links' hcode hid hconv
    unfold convidar_paciente at hconv
    revert hconv
    cases hfind : links.find? (fun v =>
        v.profissional_id == p && v.paciente_id == u) with
    | none =>
      intro hconv
      cases hgen : gerar_codigo_convite links draws with
      | none => rw [hgen] at hconv; simp at hconv
      | some c =>
        rw [hgen] at hconv
        simp only [Option.map_some', Option.some.injEq] at hconv
        subst hconv
        exact codigosUnicos_append_fresh links (mkVinculo i p u c now)
          hcode (gerar_codigo_convite_fresh links draws c hgen)
    | some v =>
      intro hconv
      dsimp only at hconv
      cases hst : v.status with
      | pendente =>
        rw [hst] at hconv
        cases hconv
        assumption
      | ativo =>
        rw [hst] at hconv
        cases hconv
        assumption
      | expirado =>
        rw [hst] at hconv
        cases hconv
        assumption
      | revogado =>
        rw [hst] at hconv
        cases hgen : gerar_codigo_convite links draws with
        | none => rw [hgen] at hconv; simp at hconv
        | some c =>
          rw [hgen] at hconv
          simp only [Option.map_some', Option.some.injEq] at hconv
          subst hconv
          exact codigosUnicos_updateLink links _ hcode hid
            (gerar_codigo_convite_fresh links draws c hgen)

/-- Witness for `codigo_convite_unico_spec`: two issued invitations, of
which the second redraws past the taken code, give two distinct codes;
and a concrete reissue keeps the store's codes distinct. -/
theorem codigo_convite_unico_spec_witness :
    (mkVinculo 1 1 2 "AAAA1111" 0).codigo_convite ≠ "BBBB2222" ∧
    codigosUnicos
      [mkVinculo 10 1 2 "AAAA1111" 5, mkVinculo 11 1 3 "BBBB2222" 5] ∧
    [mkVinculo 10 1 2 "AAAA1111" 5, mkVinculo 11 1 3 "BBBB2222" 5].length
      = 2 ∧
    codigosUnicos (updateLink
      [{ mkVinculo 3 1 2 "CCCC2222" 0 with status := Status.revogado }]
      { { mkVinculo 3 1 2 "CCCC2222" 0 with status := Status.revogado } with
          status := Status.pendente
          data_convite := 100
          codigo_convite := "DDDD3333" }) :=
  ⟨codigo_convite_unico_spec.1 [mkVinculo 1 1 2 "AAAA1111" 0]
      ["AAAA1111", "BBBB2222"] "BBBB2222" (by decide)
      (mkVinculo 1 1 2 "AAAA1111" 0) (by simp),
   (codigo_convite_unico_spec.2.1 5
      [(10, 1, 2, ["AAAA1111"]), (11, 1, 3, ["AAAA1111", "BBBB2222"])]
      [mkVinculo 10 1 2 "AAAA1111" 5, mkVinculo 11 1 3 "BBBB2222" 5]
      (by decide)).1,
   (codigo_convite_unico_spec.2.1 5
      [(10, 1, 2, ["AAAA1111"]), (11, 1, 3, ["AAAA1111", "BBBB2222"])]
      [mkVinculo 10 1 2 "AAAA1111" 5, mkVinculo 11 1 3 "BBBB2222" 5]
      (by decide)).2,
   codigo_convite_unico_spec.2.2
      [{ mkVinculo 3 1 2 "CCCC2222" 0 with status := Status.revogado }]
      1 2 ["DDDD3333"] 100 9
      (updateLink
        [{ mkVinculo 3 1 2 "CCCC2222" 0 with status := Status.revogado }]
        { { mkVinculo 3 1 2 "CCCC2222" 0 with
              status := Status.revogado } with
            status := Status.pendente
            data_convite := 100
            codigo_convite := "DDDD3333" })
      (by decide) (by decide) (by decide)⟩

/-- C9: when the link lacks the full-history capability, every entry the
professional's patient view returns was created within the trailing 14
days (and belongs to the patient), and every older entry is excluded. -/
theorem ver_paciente_janela_spec (entries : List DiaryEntry) (pacId : Nat)
    (v : Vinculo) (now : Nat) (e : DiaryEntry)
    (hfull : v.pode_ver_historico_completo = false) :
    (∀ x ∈ ver_paciente_entradas entries pacId v now,
        x.user_id = pacId ∧ now - 14 * 86400 ≤ x.created_at) ∧
    (e.created_at < now - 14 * 86400 →
        e ∉ ver_paciente_entradas entries pacId v now) := by
  have key : ∀ x, x ∈ ver_paciente_entradas entries pacId v now →
      x.user_id = pacId ∧ now - 14 * 86400 ≤ x.created_at := by
    intro x hx
    unfold ver_paciente_entradas at hx
    simp only [hfull, Bool.false_eq_true, if_false] at hx
    have hx1 := List.take_subset _ _ hx
    rw [List.mem_mergeSort, List.mem_filter] at hx1
    obtain ⟨hx2, hwin⟩ := hx1
    rw [List.mem_filter] at hx2
    obtain ⟨_, hpac⟩ := hx2
    refine ⟨by simpa using hpac, by simpa using hwin⟩
  refine ⟨key, fun hold hmem => ?_⟩
  have := (key e hmem).2
  omega

/-- Witness for `ver_paciente_janela_spec`: with a partial-consent link,
an entry created on day 10 is excluded from a query made on day 100. -/
theorem ver_paciente_janela_spec_witness :
    ({ user_id := 2, created_at := 10 * 86400, emotion := "triste",
       cycle := none } : DiaryEntry) ∉
      ver_paciente_entradas
        [{ user_id := 2, created_at := 95 * 86400, emotion := "alegria",
           cycle := none },
         { user_id := 2, created_at := 10 * 86400, emotion := "triste",
           cycle := none }]
        2 (aceitar_convite (mkVinculo 1 1 2 "JJJJ8888" 0) false 10)
        (100 * 86400) :=
  (ver_paciente_janela_spec
      [{ user_id := 2, created_at := 95 * 86400, emotion := "alegria",
         cycle := none },
       { user_id := 2, created_at := 10 * 86400, emotion := "triste",
         cycle := none }]
      2 (aceitar_convite (mkVinculo 1 1 2 "JJJJ8888" 0) false 10)
      (100 * 86400)
      { user_id := 2, created_at := 10 * 86400, emotion := "triste",
        cycle := none }
      (by rfl)).2 (by decide)

end Caris
